import Mathlib

/-!
# Verification of the HRM Connect signal-processing core

Shallow embedding of the HRV signal-processing core of the `hrmconnect`
repository and proofs about it.

Conventions of the embedding:
* JavaScript numbers are modelled as exact rationals (`ℚ`); timestamps
  (epoch milliseconds, `Date.now()`) as integers (`ℤ`).
* `Math.round` is `round` (round half toward positive infinity, `⌊x + 1/2⌋`,
  which agrees with the JS semantics); `Math.floor` on timestamp differences
  is `Int.fdiv`.
* Stateful calculator classes become explicit state structures; `Date.now()`
  becomes an explicit `now : ℤ` argument threaded to the methods that read it.
* `new Date(t).toDateString()` / `toLocaleDateString` grouping of timestamps
  into calendar days is modelled by the day index `t.fdiv 86400000`
  (fixed day boundaries); two timestamps are grouped together exactly when
  they yield the same day index.
-/

/-- `Math.min(...list)` over a non-empty list (`0` returned for `[]`,
which only occurs under guards that rule the empty list out). -/
def listMin (l : List ℚ) : ℚ :=
  match l with
  | [] => 0
  | x :: xs => xs.foldl min x

/-- `Math.max(...list)` over a non-empty list. -/
def listMax (l : List ℚ) : ℚ :=
  match l with
  | [] => 0
  | x :: xs => xs.foldl max x

/-- The list of successive differences `l[i+1] - l[i]`, as produced by the
`for (let i = 1; i < n; i++)` loops of the source. -/
def succDiffs (l : List ℚ) : List ℚ :=
  List.zipWith (fun a b => b - a) l l.tail

/-- `Math.round (Math.sqrt v)` for a nonnegative rational `v`, computably.
`roundSqrt_eq` below proves that this agrees with the mathematical
rounded square root. -/
def roundSqrt (v : ℚ) : ℕ :=
  (Nat.sqrt ⌊4 * v⌋₊ + 1) / 2

/-! ## Running Statistics Engine (`StatsCalculator`, `src/utils/stats.ts`) -/

/-- The `SessionStats` record. -/
structure SessionStats where
  minHr : ℚ
  maxHr : ℚ
  avgHr : ℚ
  sdnn : ℚ
  rmssd : ℚ
  duration : ℚ
deriving DecidableEq, Repr

/-- Internal state of a `StatsCalculator` instance. -/
structure StatsState where
  heartRates : List ℚ
  rrIntervals : List ℚ
  startTime : ℤ
deriving DecidableEq, Repr

namespace StatsCalculator

/-- `reset()`: discard all data, restart the clock. -/
def reset (now : ℤ) : StatsState := ⟨[], [], now⟩

/-- `addReading(hr, rrs?)`. -/
def addReading (now : ℤ) (st : StatsState) (hr : ℚ) (rrs : Option (List ℚ)) :
    StatsState :=
  let st := if st.heartRates = [] then { st with startTime := now } else st
  { st with
    heartRates := st.heartRates ++ [hr]
    rrIntervals := st.rrIntervals ++ rrs.getD [] }

/-- `getStats()`. -/
def getStats (now : ℤ) (st : StatsState) : SessionStats :=
  if st.heartRates = [] then ⟨0, 0, 0, 0, 0, 0⟩
  else
    let n := st.rrIntervals.length
    let sdnn : ℚ :=
      if 1 < n then
        let meanRR : ℚ := st.rrIntervals.sum / n
        let variance : ℚ := (st.rrIntervals.map (fun rr => (rr - meanRR) ^ 2)).sum / n
        (roundSqrt variance : ℚ)
      else 0
    let rmssd : ℚ :=
      if 1 < n then
        let sumSquaredDiffs : ℚ := ((succDiffs st.rrIntervals).map (fun d => d ^ 2)).sum
        (roundSqrt (sumSquaredDiffs / ((n : ℚ) - 1)) : ℚ)
      else 0
    { minHr := listMin st.heartRates
      maxHr := listMax st.heartRates
      avgHr := ((round (st.heartRates.sum / st.heartRates.length) : ℤ) : ℚ)
      sdnn := sdnn
      rmssd := rmssd
      duration := (((now - st.startTime).fdiv 1000 : ℤ) : ℚ) }

end StatsCalculator

/-- Specification-side definition: the population standard deviation of a
series (variance divides by `N`, not `N − 1`). -/
noncomputable def specPopStdDev (l : List ℚ) : ℝ :=
  Real.sqrt
    (((l.map (fun (x : ℚ) =>
        ((x : ℝ) - (l.map (fun (y : ℚ) => (y : ℝ))).sum / l.length) ^ 2)).sum)
      / l.length)

/-- Specification-side definition: the root-mean-square of successive
differences between adjacent intervals. -/
noncomputable def specRmssd (l : List ℚ) : ℝ :=
  Real.sqrt
    ((((succDiffs l).map (fun (d : ℚ) => ((d : ℝ)) ^ 2)).sum) / ((l.length : ℝ) - 1))

/-! ## Persisted data model (`src/services/storage.ts`) -/

/-- The `AdvancedStats` record (`src/utils/advancedStats.ts`). -/
structure AdvancedStats where
  pnn50 : ℚ
  stressIndex : ℚ
  lf : ℚ
  hf : ℚ
  lfHfRatio : ℚ
  respirationRate : ℚ
deriving DecidableEq, Repr

/-- `testType` of a `Session`. -/
inductive TestType
  | regular
  | morning
deriving DecidableEq, Repr

/-- The persisted `Session` entity. -/
structure Session where
  id : String
  startTime : ℤ
  endTime : ℤ
  hrData : List (ℤ × ℚ)
  rrIntervals : List ℚ
  stats : SessionStats
  advancedStats : AdvancedStats
  testType : Option TestType
deriving DecidableEq, Repr

/-- The persisted `MorningTestResult` entity. -/
structure MorningTestResult where
  id : Option String
  timestamp : ℤ
  lyingAvgHr : ℚ
  standingAvgHr : ℚ
  hrDelta : ℚ
  lyingRMSSD : ℚ
  standingRMSSD : ℚ
  readinessScore : ℚ
deriving DecidableEq, Repr

/-- Day index of an epoch-millisecond timestamp: the model of
`new Date(t).toDateString()` / short `toLocaleDateString` grouping
(see the header comment). -/
def toDay (t : ℤ) : ℤ := t.fdiv 86400000

/-! ## Recovery Score Calculator (`src/utils/recovery.ts`) -/

/-- `zone` of a `RecoveryData` (TS string-literal union). -/
inductive RecoveryZone
  | poor
  | moderate
  | good
deriving DecidableEq, Repr

/-- The `factors` sub-record of `RecoveryData`. -/
structure RecoveryFactors where
  hrvBaseline : ℤ
  restingHrTrend : ℤ
  stressHistory : ℤ
  consistency : ℤ
deriving DecidableEq, Repr

/-- The `RecoveryData` record. -/
structure RecoveryData where
  score : ℤ
  zone : RecoveryZone
  color : String
  label : String
  factors : RecoveryFactors
deriving DecidableEq, Repr

/-- `calculateRecoveryScore(sessions, morningTests, days)`, with `Date.now()`
made explicit as `now`.  The one corner where the embedding departs from
JS numerics: a sum over an empty filtered list divided by a zero count is
`0` here where JS produces `NaN` (line `baselineHr` when every session has
`avgHr ≤ 0`); no theorem below rests on that corner. -/
def calculateRecoveryScore (now : ℤ) (sessions : List Session)
    (morningTests : List MorningTestResult) (days : ℤ) : RecoveryData :=
  let cutoff := now - days * 86400000
  let recentSessions := sessions.filter (fun s => cutoff ≤ s.startTime)
  let recentTests := morningTests.filter (fun t => cutoff ≤ t.timestamp)
  if recentSessions = [] ∧ recentTests = [] then
    ⟨0, RecoveryZone.poor, "#ef4444", "No Data", ⟨0, 0, 0, 0⟩⟩
  else
    -- 1. HRV Baseline comparison (0-25)
    let allRmssd := (sessions.map (fun s => s.stats.rmssd)).filter (fun v => 0 < v)
    let allSdnn := (sessions.map (fun s => s.stats.sdnn)).filter (fun v => 0 < v)
    let baselineRmssd : ℚ :=
      if allRmssd.length > 0 then allRmssd.sum / allRmssd.length else 40
    let baselineSdnn : ℚ :=
      if allSdnn.length > 0 then allSdnn.sum / allSdnn.length else 50
    let recentRmssd : ℚ :=
      if recentSessions.length > 0 then
        (recentSessions.map (fun s => s.stats.rmssd)).sum / recentSessions.length
      else if recentTests.length > 0 then
        (recentTests.map (fun t => t.lyingRMSSD)).sum / recentTests.length
      else 0
    let recentSdnn : ℚ :=
      if recentSessions.length > 0 then
        (recentSessions.map (fun s => s.stats.sdnn)).sum / recentSessions.length
      else 0
    let rmssdRatio : ℚ :=
      if 0 < baselineRmssd then min (recentRmssd / baselineRmssd) 1.5 else 0
    let sdnnRatio : ℚ :=
      if 0 < baselineSdnn then min (recentSdnn / baselineSdnn) 1.5 else 0
    let hrvScore : ℤ := min 25 (round ((rmssdRatio * 0.6 + sdnnRatio * 0.4) / 1.5 * 25))
    -- 2. Resting HR trend (0-25)
    let recentHrs := (recentSessions.map (fun s => s.stats.avgHr)).filter (fun v => 0 < v)
    let morningHrs := (recentTests.map (fun t => t.lyingAvgHr)).filter (fun v => 0 < v)
    let allRecentHr := recentHrs ++ morningHrs
    let avgRecentHr : ℚ :=
      if allRecentHr.length > 0 then allRecentHr.sum / allRecentHr.length else 70
    let baselineHr : ℚ :=
      if sessions.length > 0 then
        ((sessions.map (fun s => s.stats.avgHr)).filter (fun v => 0 < v)).sum
          / ((sessions.filter (fun s => 0 < s.stats.avgHr)).length : ℚ)
      else 70
    let hrRatio : ℚ := if 0 < avgRecentHr then min (baselineHr / avgRecentHr) 1.3 else 0
    let hrScore : ℤ := min 25 (round (hrRatio / 1.3 * 25))
    -- 3. Stress history (0-25)
    let recentStress :=
      (recentSessions.map (fun s => s.advancedStats.stressIndex)).filter (fun v => 0 < v)
    let stressScore : ℤ :=
      if recentStress.length > 0 then
        let avgStress : ℚ := recentStress.sum / recentStress.length
        min 25 (max 0 (round (25 * (1 - min (avgStress / 400) 1))))
      else 20
    -- 4. Session consistency (0-25)
    let uniqueDays : ℕ := ((recentSessions.map (fun s => toDay s.startTime)).dedup).length
    let testDays : ℕ := ((recentTests.map (fun t => toDay t.timestamp)).dedup).length
    let totalActiveDays : ℤ := min ((uniqueDays : ℤ) + (testDays : ℤ)) days
    let consistencyRatio : ℚ := (totalActiveDays : ℚ) / ((min days 7 : ℤ) : ℚ)
    let consistencyScore : ℤ := min 25 (round (consistencyRatio * 25))
    let totalScore : ℤ := min 100 (hrvScore + hrScore + stressScore + consistencyScore)
    let zcl : RecoveryZone × String × String :=
      if 67 ≤ totalScore then (RecoveryZone.good, "#22c55e", "Good Recovery")
      else if 34 ≤ totalScore then (RecoveryZone.moderate, "#eab308", "Moderate")
      else (RecoveryZone.poor, "#ef4444", "Poor Recovery")
    ⟨totalScore, zcl.1, zcl.2.1, zcl.2.2, ⟨hrvScore, hrScore, stressScore, consistencyScore⟩⟩

/-! ## Trend Aggregator (`src/utils/recovery.ts`) -/

/-- One `TrendPoint`.  `date` holds the grouping key (the day index standing
in for the formatted date string). -/
structure TrendPoint where
  date : ℤ
  timestamp : ℤ
  rmssd : ℚ
  sdnn : ℚ
  stressScore : ℤ
  recoveryScore : ℤ
  avgHr : ℤ
deriving DecidableEq, Repr

/-- Key collection of the insertion-ordered `Map` (`byDate`): append a key
if it is not present yet. -/
def insertKey (ks : List ℤ) (k : ℤ) : List ℤ :=
  if k ∈ ks then ks else ks ++ [k]

/-- Stable insertion into an ascending list, by the key's `time`. -/
def insertByTime (time : ℤ → ℤ) (x : ℤ) : List ℤ → List ℤ
  | [] => [x]
  | y :: ys => if time y ≤ time x then y :: insertByTime time x ys else x :: y :: ys

/-- Stable ascending sort by `time`: the model of
`.sort((a, b) => aTime - bTime)` on the entries array. -/
def sortByTime (time : ℤ → ℤ) (l : List ℤ) : List ℤ :=
  l.foldl (fun acc x => insertByTime time x acc) []

/-- `buildTrendData(sessions, morningTests, days)`, with `Date.now()` made
explicit as `now` (also threaded to the inner `calculateRecoveryScore`
call, which in the source re-reads `Date.now()` in the same synchronous
turn). -/
def buildTrendData (now : ℤ) (sessions : List Session)
    (morningTests : List MorningTestResult) (days : ℤ) : List TrendPoint :=
  let cutoff := now - days * 86400000
  let recentS := sessions.filter (fun s => ¬ s.startTime < cutoff)
  let recentT := morningTests.filter (fun t => ¬ t.timestamp < cutoff)
  let keys0 := (recentS.map (fun s => toDay s.startTime)).foldl insertKey []
  let keys := (recentT.map (fun t => toDay t.timestamp)).foldl insertKey keys0
  let sessionsOf := fun k => recentS.filter (fun s => toDay s.startTime = k)
  let testsOf := fun k => recentT.filter (fun t => toDay t.timestamp = k)
  let entryTime := fun k =>
    ((sessionsOf k).head?.map Session.startTime).getD
      (((testsOf k).head?.map MorningTestResult.timestamp).getD 0)
  (sortByTime entryTime keys).map (fun k =>
    let ss := sessionsOf k
    let ts := testsOf k
    let rmssd : ℚ :=
      if ss.length > 0 then
        ((round ((ss.map (fun s => s.stats.rmssd)).sum / ss.length * 10) : ℤ) : ℚ) / 10
      else if ts.length > 0 then
        ((round ((ts.map (fun t => t.lyingRMSSD)).sum / ts.length * 10) : ℤ) : ℚ) / 10
      else 0
    let sdnn : ℚ :=
      if ss.length > 0 then
        ((round ((ss.map (fun s => s.stats.sdnn)).sum / ss.length * 10) : ℤ) : ℚ) / 10
      else 0
    let stressScore : ℤ :=
      if ss.length > 0 then
        round ((ss.map (fun s => s.advancedStats.stressIndex)).sum / ss.length)
      else 0
    let avgHr : ℤ :=
      if ss.length > 0 then round ((ss.map (fun s => s.stats.avgHr)).sum / ss.length)
      else if ts.length > 0 then round ((ts.map (fun t => t.lyingAvgHr)).sum / ts.length)
      else 0
    -- Mini recovery calc for this day
    let dayRecovery := calculateRecoveryScore now sessions morningTests 1
    let timestamp : ℤ :=
      (ss.head?.map Session.startTime).getD
        ((ts.head?.map MorningTestResult.timestamp).getD 0)
    ⟨k, timestamp, rmssd, sdnn, stressScore, dayRecovery.score, avgHr⟩)

/-- Result of `getTrendDirection` (TS string-literal union). -/
inductive TrendDirection
  | improving
  | declining
  | stable
deriving DecidableEq, Repr

/-- `getTrendDirection(values)`. -/
def getTrendDirection (values : List ℚ) : TrendDirection :=
  if values.length < 2 then TrendDirection.stable
  else
    let half := values.length / 2
    let firstHalf := values.take half
    let secondHalf := values.drop half
    let avg1 : ℚ := firstHalf.sum / firstHalf.length
    let avg2 : ℚ := secondHalf.sum / secondHalf.length
    let change : ℚ := (avg2 - avg1) / (if avg1 = 0 then 1 else avg1) * 100
    if 5 < change then TrendDirection.improving
    else if change < -5 then TrendDirection.declining
    else TrendDirection.stable

/-! ## Spectral Analysis Engine (`AdvancedStatsCalculator`,
`src/utils/advancedStats.ts`) -/

/-- The cached spectral result (`cachedFrequencyDomain`). -/
structure FrequencyDomain where
  lf : ℚ
  hf : ℚ
  lfHfRatio : ℚ
  respirationRate : ℚ
deriving DecidableEq, Repr

/-- Internal state of an `AdvancedStatsCalculator` instance. -/
structure AdvancedState where
  rrIntervals : List ℚ
  cachedFrequencyDomain : FrequencyDomain
  lastFrequencyCalculation : ℤ
deriving DecidableEq, Repr

/-- Ascending sort of keys: the model of JS object integer-key enumeration
order (`Object.entries` on the histogram, whose keys are the canonical
nonnegative-integer strings produced by positive RR values). -/
def sortAsc (l : List ℤ) : List ℤ := sortByTime (fun k => k) l

namespace AdvancedStatsCalculator

/-- The field initializers of the class: empty buffer, all-zero cache,
`lastFrequencyCalculation = 0`. -/
def initial : AdvancedState := ⟨[], ⟨0, 0, 0, 0⟩, 0⟩

/-- `addRRIntervals(rrs)`. -/
def addRRIntervals (st : AdvancedState) (rrs : List ℚ) : AdvancedState :=
  { st with rrIntervals := st.rrIntervals ++ rrs }

/-- `reset()`. -/
def reset (_st : AdvancedState) : AdvancedState := initial

/-- `calculatePNN50()` over a buffer. -/
def calculatePNN50 (rr : List ℚ) : ℚ :=
  let nn50 : ℕ := ((succDiffs rr).filter (fun d => 50 < |d|)).length
  ((nn50 : ℚ) / ((rr.length : ℚ) - 1)) * 100

/-- The 50 ms histogram bin of an RR value: `Math.round(rr / 50) * 50`. -/
def binOf (rr : ℚ) : ℤ := round (rr / 50) * 50

/-- The histogram count of bin `b`: `bins[b]` of the source (each RR value
contributes to the bin `binOf` rounds it to). -/
def binCount (rr : List ℚ) (b : ℤ) : ℕ :=
  (rr.filter (fun x => binOf x = b)).length

/-- The `(maxCount, mode)` pair produced by the source's loop over
`Object.entries(bins)` (ascending bin keys, strict-improvement update,
starting from `(0, 0)`). -/
def modePair (rr : List ℚ) : ℤ × ℤ :=
  (sortAsc ((rr.map binOf).dedup)).foldl
    (fun p b => if p.1 < (binCount rr b : ℤ) then ((binCount rr b : ℤ), b) else p)
    (0, 0)

/-- `calculateStressIndex()` over a buffer (Baevsky Stress Index). -/
def calculateStressIndex (rr : List ℚ) : ℚ :=
  if rr.length < 30 then 0
  else
    let mm : ℤ × ℤ := modePair rr
    let AMo : ℚ := ((mm.1 : ℚ) / (rr.length : ℚ)) * 100
    let Mo : ℚ := (mm.2 : ℚ) / 1000
    let MxDMn : ℚ := (listMax rr - listMin rr) / 1000
    if MxDMn = 0 ∨ Mo = 0 then 0
    else ((round (AMo / (2 * Mo * MxDMn)) : ℤ) : ℚ)

/-- The inner `while` of the resampling loop: advance the RR cursor while
the current interval ends before time `t` (arguments: remaining intervals,
cumulative start time in seconds, target time). -/
def skipRR : List ℚ → ℚ → ℚ → List ℚ × ℚ
  | [], start, _ => ([], start)
  | r :: rest, start, t =>
    if start + r / 1000 < t then skipRR rest (start + r / 1000) t
    else (r :: rest, start)

/-- Step 1 of `calculateFrequencyDomain`: nearest-preceding-interval-hold
resampling of the RR series onto a 4 Hz grid (cursor state threaded across
samples exactly as in the source loop). -/
def interpolateRR (rr : List ℚ) (numSamples : ℕ) : List ℚ :=
  ((List.range numSamples).foldl
    (fun (st : List ℚ × ℚ × List ℚ) i =>
      let t : ℚ := (i : ℚ) / 4
      let rs := skipRR st.1 st.2.1 t
      match rs.1 with
      | [] => (rs.1, rs.2, st.2.2)
      | r :: _ => (rs.1, rs.2, st.2.2 ++ [r]))
    (rr, 0, [])).2.2

/-- Power (squared magnitude) of spectral bin `k` of the `n`-point real DFT
of `input` — the mathematical contract of the external `fft.js`
`realTransform`/`completeSpectrum` pair used by the source. -/
noncomputable def dftPower (input : ℕ → ℝ) (n : ℕ) (k : ℕ) : ℝ :=
  (∑ j ∈ Finset.range n, input j * Real.cos (2 * Real.pi * j * k / n)) ^ 2
    + (∑ j ∈ Finset.range n, input j * Real.sin (2 * Real.pi * j * k / n)) ^ 2

/-- `calculateFrequencyDomain()` over a buffer. -/
noncomputable def calculateFrequencyDomain (rr : List ℚ) : FrequencyDomain :=
  if rr.length < 60 then ⟨0, 0, 0, 0⟩
  else
    let samplingRate : ℚ := 4
    let durationSec : ℚ := rr.sum / 1000
    let numSamples : ℕ := ⌊durationSec * samplingRate⌋₊
    let interpolated : List ℚ := interpolateRR rr numSamples
    -- Hamming window, then zero padding to the fixed 1024-point buffer
    let windowed : ℕ → ℝ := fun i =>
      if h : i < interpolated.length then
        (interpolated.get ⟨i, h⟩ : ℝ)
          * (0.54 - 0.46 * Real.cos (2 * Real.pi * i / ((interpolated.length : ℝ) - 1)))
      else 0
    let n : ℕ := 1024
    let input : ℕ → ℝ := fun i => if i < n then windowed i else 0
    let resolution : ℝ := 4 / (n : ℝ)
    let step : ℝ × ℝ × ℝ × ℝ → ℕ → ℝ × ℝ × ℝ × ℝ := fun st i =>
      let freq : ℝ := (i : ℝ) * resolution
      let power : ℝ := dftPower input n i
      let lfPower := if 0.04 ≤ freq ∧ freq < 0.15 then st.1 + power else st.1
      let hfPower := if 0.15 ≤ freq ∧ freq < 0.4 then st.2.1 + power else st.2.1
      let maxHfPower :=
        if (0.15 ≤ freq ∧ freq < 0.4) ∧ st.2.2.1 < power then power else st.2.2.1
      let peakHfFreq :=
        if (0.15 ≤ freq ∧ freq < 0.4) ∧ st.2.2.1 < power then freq else st.2.2.2
      (lfPower, hfPower, maxHfPower, peakHfFreq)
    let res := (List.range (n / 2)).foldl step (0, 0, 0, 0)
    let lfHfRatio : ℚ :=
      if 0 < res.2.1 then ((round (res.1 / res.2.1 * 100) : ℤ) : ℚ) / 100 else 0
    let respirationRate : ℚ :=
      if 0 < res.2.2.1 then ((round (res.2.2.2 * 60) : ℤ) : ℚ) else 0
    ⟨((round res.1 : ℤ) : ℚ), ((round res.2.1 : ℤ) : ℚ), lfHfRatio, respirationRate⟩

/-- `calculate()`: returns the `AdvancedStats` snapshot and the state after
the call (cache possibly refreshed when more than 5000 ms have passed since
the last spectral computation). -/
noncomputable def calculate (now : ℤ) (st : AdvancedState) :
    AdvancedStats × AdvancedState :=
  if st.rrIntervals.length < 2 then
    (⟨0, 0, 0, 0, 0, 0⟩, st)
  else
    let st' :=
      if 5000 < now - st.lastFrequencyCalculation then
        { st with
          cachedFrequencyDomain := calculateFrequencyDomain st.rrIntervals
          lastFrequencyCalculation := now }
      else st
    (⟨calculatePNN50 st'.rrIntervals, calculateStressIndex st'.rrIntervals,
      st'.cachedFrequencyDomain.lf, st'.cachedFrequencyDomain.hf,
      st'.cachedFrequencyDomain.lfHfRatio, st'.cachedFrequencyDomain.respirationRate⟩,
      st')

end AdvancedStatsCalculator

/-- An operation on an `AdvancedStatsCalculator`: an `addRRIntervals` batch
or a `calculate` call at a wall-clock time. -/
inductive AdvancedOp
  | addRR (xs : List ℚ)
  | calcAt (t : ℤ)
deriving DecidableEq

/-- Apply one operation to the state. -/
noncomputable def applyOp (st : AdvancedState) : AdvancedOp → AdvancedState
  | AdvancedOp.addRR xs => AdvancedStatsCalculator.addRRIntervals st xs
  | AdvancedOp.calcAt t => (AdvancedStatsCalculator.calculate t st).2

/-- Run a sequence of operations. -/
noncomputable def runOps (st : AdvancedState) (ops : List AdvancedOp) : AdvancedState :=
  ops.foldl applyOp st

/-- `true` when the operation is an `addRRIntervals`, or a `calculate` call
that happens no later than `bound`. -/
def opWithin (bound : ℤ) : AdvancedOp → Bool
  | AdvancedOp.addRR _ => true
  | AdvancedOp.calcAt t => decide (t ≤ bound)

/-- States of the Spectral Analysis Engine reachable by any sequence of
`addRRIntervals`, `calculate` and `reset` calls at any wall-clock times. -/
inductive Reachable : AdvancedState → Prop
  | init : Reachable AdvancedStatsCalculator.initial
  | add (xs : List ℚ) {st : AdvancedState} :
      Reachable st → Reachable (AdvancedStatsCalculator.addRRIntervals st xs)
  | calcStep (t : ℤ) {st : AdvancedState} :
      Reachable st → Reachable (AdvancedStatsCalculator.calculate t st).2
  | resetStep {st : AdvancedState} :
      Reachable st → Reachable (AdvancedStatsCalculator.reset st)

/-! ## Morning Readiness Score Calculator (`src/utils/readiness.ts`) -/

/-- `status` of a `ReadinessResult` (TS string-literal union). -/
inductive ReadinessStatus
  | poor
  | fair
  | good
  | excellent
deriving DecidableEq, Repr

/-- One factor entry of `ReadinessResult.factors`. -/
structure FactorEntry where
  value : ℚ
  contribution : ℤ
  label : String
deriving DecidableEq, Repr

/-- The `factors` sub-record of `ReadinessResult`. -/
structure ReadinessFactors where
  rmssd : FactorEntry
  restingHR : FactorEntry
  hrv : FactorEntry
deriving DecidableEq, Repr

/-- The `ReadinessResult` record. -/
structure ReadinessResult where
  score : ℤ
  status : ReadinessStatus
  color : String
  recommendation : String
  factors : ReadinessFactors
deriving DecidableEq, Repr

/-- The `PersonalBaseline` record. -/
structure PersonalBaseline where
  avgRmssd : ℚ
  avgRestingHR : ℚ
  avgSdnn : ℚ
deriving DecidableEq, Repr

/-- `DEFAULT_BASELINE`. -/
def DEFAULT_BASELINE : PersonalBaseline := ⟨40, 65, 50⟩

/-- `calculateReadiness(stats, advancedStats, baseline)`. -/
def calculateReadiness (stats : SessionStats) (advancedStats : AdvancedStats)
    (baseline : PersonalBaseline) : ReadinessResult :=
  -- RMSSD (40% weight), gated on pnn50 > 0
  let rmssdRatio : ℚ :=
    if 0 < advancedStats.pnn50 then stats.rmssd / baseline.avgRmssd else 0
  let rmssdScore : ℚ := min 100 (max 0 (rmssdRatio * 100))
  let rmssdContribution : ℚ := rmssdScore * 0.40
  -- Resting HR (35% weight), lower is better
  let hrRatio : ℚ := if 0 < stats.avgHr then baseline.avgRestingHR / stats.avgHr else 0
  let hrScore : ℚ := min 100 (max 0 (hrRatio * 100))
  let hrContribution : ℚ := hrScore * 0.35
  -- SDNN (25% weight)
  let sdnnRatio : ℚ := if 0 < stats.sdnn then stats.sdnn / baseline.avgSdnn else 0
  let sdnnScore : ℚ := min 100 (max 0 (sdnnRatio * 100))
  let sdnnContribution : ℚ := sdnnScore * 0.25
  let totalScore : ℤ := round (rmssdContribution + hrContribution + sdnnContribution)
  let scr : ReadinessStatus × String × String :=
    if 80 ≤ totalScore then
      (ReadinessStatus.excellent, "#22c55e",
        "Great recovery! You\x27re ready for high-intensity training.")
    else if 60 ≤ totalScore then
      (ReadinessStatus.good, "#84cc16", "Good recovery. Normal training is recommended.")
    else if 40 ≤ totalScore then
      (ReadinessStatus.fair, "#eab308", "Moderate recovery. Consider lighter training today.")
    else
      (ReadinessStatus.poor, "#ef4444",
        "Low recovery detected. Rest or very light activity recommended.")
  ⟨totalScore, scr.1, scr.2.1, scr.2.2,
    ⟨⟨stats.rmssd, round rmssdContribution,
        if 100 ≤ rmssdScore then "Above baseline"
        else if 70 ≤ rmssdScore then "Near baseline" else "Below baseline"⟩,
     ⟨stats.avgHr, round hrContribution,
        if 100 ≤ hrScore then "Below baseline"
        else if 70 ≤ hrScore then "Near baseline" else "Above baseline"⟩,
     ⟨stats.sdnn, round sdnnContribution,
        if 100 ≤ sdnnScore then "Above baseline"
        else if 70 ≤ sdnnScore then "Near baseline" else "Below baseline"⟩⟩⟩

/-- `getQuickReadiness(rmssd, restingHR)`. -/
def getQuickReadiness (rmssd restingHR : ℚ) : ℤ :=
  let rmssdScore : ℚ := min 100 ((rmssd / 50) * 100)
  let hrScore : ℚ := min 100 ((60 / restingHR) * 100)
  round (rmssdScore * 0.6 + hrScore * 0.4)

/-! ## Theorems -/

/-- `roundSqrt` computes the rounded square root: kernel-computable
arithmetic on the left, the mathematical specification on the right. -/
theorem roundSqrt_eq (v : ℚ) (hv : 0 ≤ v) :
    (roundSqrt v : ℤ) = round (Real.sqrt (v : ℝ)) := by
  have hv' : (0 : ℝ) ≤ (v : ℝ) := by exact_mod_cast hv
  have h4 : (0 : ℚ) ≤ 4 * v := by linarith
  set m := Nat.sqrt ⌊4 * v⌋₊ with hm
  have hm1 : (m * m : ℕ) ≤ ⌊4 * v⌋₊ := Nat.sqrt_le _
  have hm2 : (⌊4 * v⌋₊ : ℕ) < (m + 1) * (m + 1) := Nat.lt_succ_sqrt _
  have hfl : ((⌊4 * v⌋₊ : ℕ) : ℚ) ≤ 4 * v := Nat.floor_le h4
  have hfl2 : 4 * v < (⌊4 * v⌋₊ : ℕ) + 1 := Nat.lt_floor_add_one _
  -- real bounds on √(4v)
  have hlow : (m : ℝ) ≤ Real.sqrt (4 * (v : ℝ)) := by
    apply Real.le_sqrt_of_sq_le
    have h0 : ((m * m : ℕ) : ℝ) ≤ ((⌊4 * v⌋₊ : ℕ) : ℝ) := by exact_mod_cast hm1
    have h' : ((⌊4 * v⌋₊ : ℕ) : ℝ) ≤ 4 * (v : ℝ) := by exact_mod_cast hfl
    push_cast at h0
    nlinarith
  have hhigh : Real.sqrt (4 * (v : ℝ)) < (m : ℝ) + 1 := by
    rw [Real.sqrt_lt' (by positivity)]
    have h1 : (4 * v : ℚ) < ((⌊4 * v⌋₊ : ℕ) : ℚ) + 1 := hfl2
    have h2 : ((⌊4 * v⌋₊ : ℕ) : ℝ) + 1 ≤ ((m : ℝ) + 1) * ((m : ℝ) + 1) := by
      have : ((⌊4 * v⌋₊ : ℕ) : ℝ) + 1 ≤ (((m + 1) * (m + 1) : ℕ) : ℝ) := by
        exact_mod_cast hm2
      push_cast at this
      nlinarith
    have h1' : 4 * (v : ℝ) < ((⌊4 * v⌋₊ : ℕ) : ℝ) + 1 := by exact_mod_cast h1
    nlinarith
  have hsqrt4 : Real.sqrt (4 * (v : ℝ)) = 2 * Real.sqrt (v : ℝ) := by
    rw [show (4 : ℝ) * (v : ℝ) = 2 ^ 2 * (v : ℝ) by norm_num,
      Real.sqrt_mul (by positivity), Real.sqrt_sq (by norm_num : (0 : ℝ) ≤ 2)]
  rw [hsqrt4] at hlow hhigh
  set s := Real.sqrt (v : ℝ) with hs
  have hk1 : m ≤ 2 * ((m + 1) / 2) := by omega
  have hk2 : 2 * ((m + 1) / 2) ≤ m + 1 := by omega
  rw [round_eq]
  symm
  rw [Int.floor_eq_iff]
  have hrs : roundSqrt v = (m + 1) / 2 := rfl
  have hc1 : (m : ℝ) ≤ 2 * (((m + 1) / 2 : ℕ) : ℝ) := by exact_mod_cast hk1
  have hc2 : 2 * (((m + 1) / 2 : ℕ) : ℝ) ≤ (m : ℝ) + 1 := by exact_mod_cast hk2
  constructor
  · rw [hrs]
    have hgoal : (((m + 1) / 2 : ℕ) : ℝ) ≤ s + 1 / 2 := by linarith
    exact_mod_cast hgoal
  · rw [hrs]
    have hgoal : s + 1 / 2 < (((m + 1) / 2 : ℕ) : ℝ) + 1 := by linarith
    exact_mod_cast hgoal

theorem roundSqrt_eval {v : ℚ} {k : ℕ} (h1 : ((k * k : ℕ) : ℚ) ≤ 4 * v)
    (h2 : 4 * v < (((k + 1) * (k + 1) : ℕ) : ℚ)) : roundSqrt v = (k + 1) / 2 := by
  have h0 : (0 : ℚ) ≤ 4 * v := le_trans (by positivity) h1
  have hfl1 : (k * k : ℕ) ≤ ⌊4 * v⌋₊ := Nat.le_floor h1
  have hfl2 : ⌊4 * v⌋₊ < ((k + 1) * (k + 1) : ℕ) := by
    rw [Nat.floor_lt h0]
    exact h2
  unfold roundSqrt
  rw [(Nat.eq_sqrt.mpr ⟨hfl1, hfl2⟩).symm]

theorem cast_variance (rr : List ℚ) :
    (((rr.map (fun rx => (rx - rr.sum / rr.length) ^ 2)).sum / rr.length : ℚ) : ℝ)
      = ((rr.map (fun (x : ℚ) =>
            ((x : ℝ) - (rr.map (fun (y : ℚ) => (y : ℝ))).sum / rr.length) ^ 2)).sum)
          / rr.length := by
  have hnum : (rr.map (fun (x : ℚ) => ((((x - rr.sum / rr.length) ^ 2 : ℚ)) : ℝ))).sum
      = (rr.map (fun (x : ℚ) =>
          ((x : ℝ) - (rr.map (fun (y : ℚ) => (y : ℝ))).sum / rr.length) ^ 2)).sum := by
    refine congrArg List.sum (List.map_congr_left fun x hx => ?_)
    push_cast [Rat.cast_list_sum]
    ring
  rw [Rat.cast_div, Rat.cast_list_sum, List.map_map]
  rw [show ((Rat.cast : ℚ → ℝ) ∘ fun rx => ((rx - rr.sum / rr.length) ^ 2 : ℚ))
      = (fun (x : ℚ) => ((((x - rr.sum / rr.length) ^ 2 : ℚ)) : ℝ)) from rfl]
  rw [hnum]
  norm_cast

theorem cast_msd (rr : List ℚ) :
    (((((succDiffs rr).map (fun d => d ^ 2)).sum) / ((rr.length : ℚ) - 1) : ℚ) : ℝ)
      = (((succDiffs rr).map (fun (d : ℚ) => ((d : ℝ)) ^ 2)).sum)
          / ((rr.length : ℝ) - 1) := by
  have hnum : ((succDiffs rr).map (fun (d : ℚ) => ((d ^ 2 : ℚ) : ℝ))).sum
      = ((succDiffs rr).map (fun (d : ℚ) => ((d : ℝ)) ^ 2)).sum := by
    refine congrArg List.sum (List.map_congr_left fun d hd => ?_)
    push_cast
    ring
  rw [Rat.cast_div, Rat.cast_list_sum, List.map_map]
  rw [show ((Rat.cast : ℚ → ℝ) ∘ fun d => (d ^ 2 : ℚ))
      = (fun (d : ℚ) => ((d ^ 2 : ℚ) : ℝ)) from rfl]
  rw [hnum]
  norm_cast

theorem variance_nonneg (rr : List ℚ) :
    0 ≤ (rr.map (fun rx => (rx - rr.sum / rr.length) ^ 2)).sum / (rr.length : ℚ) := by
  apply div_nonneg
  · apply List.sum_nonneg
    intro x hx
    obtain ⟨y, hy, rfl⟩ := List.mem_map.1 hx
    positivity
  · positivity

theorem msd_nonneg (rr : List ℚ) (h : 1 < rr.length) :
    0 ≤ ((succDiffs rr).map (fun d => d ^ 2)).sum / ((rr.length : ℚ) - 1) := by
  apply div_nonneg
  · apply List.sum_nonneg
    intro x hx
    obtain ⟨y, hy, rfl⟩ := List.mem_map.1 hx
    positivity
  · have h2 : (2 : ℚ) ≤ (rr.length : ℚ) := by exact_mod_cast h
    linarith

/-- Claim C1: `getStats()` returns `sdnn` equal to the rounded population
standard deviation of the RR intervals (variance divided by `N`) and `rmssd`
equal to the rounded root-mean-square of successive differences, both `0`
when the series has fewer than 2 intervals; `[800, 900, 1000]` yields
`sdnn = 82` and `[800, 850, 900]` yields `rmssd = 50`. -/
theorem C1_getStats_hrv (now t0 : ℤ) (hr rr : List ℚ) (hhr : hr ≠ []) :
    ((StatsCalculator.getStats now ⟨hr, rr, t0⟩).sdnn
      = (((if rr.length < 2 then 0 else round (specPopStdDev rr)) : ℤ) : ℚ))
    ∧ ((StatsCalculator.getStats now ⟨hr, rr, t0⟩).rmssd
      = (((if rr.length < 2 then 0 else round (specRmssd rr)) : ℤ) : ℚ))
    ∧ (StatsCalculator.getStats 0 ⟨[70], [800, 900, 1000], 0⟩).sdnn = 82
    ∧ (StatsCalculator.getStats 0 ⟨[70], [800, 850, 900], 0⟩).rmssd = 50 := by
  refine ⟨?_, ?_, ?_, ?_⟩
  · by_cases h1 : rr.length < 2
    · have h2 : ¬ 1 < rr.length := by omega
      simp [StatsCalculator.getStats, hhr, h1, h2]
    · have h2 : 1 < rr.length := by omega
      simp only [StatsCalculator.getStats, if_neg hhr, if_pos h2, if_neg h1]
      simp only [specPopStdDev, ← cast_variance]
      rw [← roundSqrt_eq _ (variance_nonneg rr)]
      norm_cast
  · by_cases h1 : rr.length < 2
    · have h2 : ¬ 1 < rr.length := by omega
      simp [StatsCalculator.getStats, hhr, h1, h2]
    · have h2 : 1 < rr.length := by omega
      simp only [StatsCalculator.getStats, if_neg hhr, if_pos h2, if_neg h1]
      simp only [specRmssd, ← cast_msd]
      rw [← roundSqrt_eq _ (msd_nonneg rr h2)]
      norm_cast
  · norm_num [StatsCalculator.getStats, succDiffs]
    rw [roundSqrt_eval (k := 163) (by norm_num) (by norm_num)]
    norm_num
  · norm_num [StatsCalculator.getStats, succDiffs]
    rw [roundSqrt_eval (k := 100) (by norm_num) (by norm_num)]
    norm_num

/-- Witness for C1 at a concrete input. -/
theorem C1_witness :
    (([70] : List ℚ) ≠ [])
    ∧ (StatsCalculator.getStats 0 ⟨[70], [800, 900, 1000], 0⟩).sdnn = 82 :=
  ⟨by decide, (C1_getStats_hrv 0 0 [70] [800, 900, 1000] (by decide)).2.2.1⟩

/-! ## Claims about the Recovery Score Calculator and Trend Aggregator -/

/-- Claim C8: `calculateRecoveryScore` returns the sentinel
`{score 0, zone poor, label "No Data", all factors 0}` whenever no session
starts within the trailing window and no morning test falls within it,
regardless of history outside the window. -/
theorem C8_no_data_sentinel (now days : ℤ) (sessions : List Session)
    (morningTests : List MorningTestResult)
    (hs : ∀ s ∈ sessions, s.startTime < now - days * 86400000)
    (ht : ∀ t ∈ morningTests, t.timestamp < now - days * 86400000) :
    calculateRecoveryScore now sessions morningTests days
      = ⟨0, RecoveryZone.poor, "#ef4444", "No Data", ⟨0, 0, 0, 0⟩⟩ := by
  have h1 : sessions.filter (fun s => now - days * 86400000 ≤ s.startTime) = [] := by
    simp only [List.filter_eq_nil_iff, decide_eq_true_eq]
    intro s hsm
    exact not_le.mpr (hs s hsm)
  have h2 : morningTests.filter (fun t => now - days * 86400000 ≤ t.timestamp) = [] := by
    simp only [List.filter_eq_nil_iff, decide_eq_true_eq]
    intro t htm
    exact not_le.mpr (ht t htm)
  simp only [calculateRecoveryScore]
  rw [h1, h2]
  simp

/-- Witness for C8: a session and a test exist in history, both older than
the window, and the sentinel is returned. -/
theorem C8_witness :
    (∀ s ∈ [(⟨"old", 100000, 100000, [], [], ⟨60, 80, 70, 50, 40, 300⟩,
        ⟨5, 120, 0, 0, 0, 0⟩, none⟩ : Session)],
      s.startTime < 864000000 - 7 * 86400000)
    ∧ (∀ t ∈ [(⟨none, 200000, 60, 70, 10, 40, 35, 70⟩ : MorningTestResult)],
      t.timestamp < 864000000 - 7 * 86400000)
    ∧ calculateRecoveryScore 864000000
        [⟨"old", 100000, 100000, [], [], ⟨60, 80, 70, 50, 40, 300⟩, ⟨5, 120, 0, 0, 0, 0⟩, none⟩]
        [⟨none, 200000, 60, 70, 10, 40, 35, 70⟩] 7
      = ⟨0, RecoveryZone.poor, "#ef4444", "No Data", ⟨0, 0, 0, 0⟩⟩ :=
  ⟨by decide, by decide, C8_no_data_sentinel 864000000 7 _ _ (by decide) (by decide)⟩

/-- Counterexample to Claim C2 as stated: one session and one morning test
on the same calendar day inside a 7-day window.  There is exactly 1
distinct active day, so the claimed formula gives
`min 25 (round ((min 1 7) / min 7 7 * 25)) = 4`, but the code counts the
day once per collection (`uniqueDays + testDays = 2`) and returns 7. -/
theorem C2_counterexample :
    (calculateRecoveryScore 864000000
        [⟨"s1", 777601000, 777601000, [], [], ⟨60, 80, 70, 50, 40, 300⟩,
          ⟨0, 0, 0, 0, 0, 0⟩, none⟩]
        [⟨none, 777602000, 60, 70, 10, 40, 35, 70⟩] 7).factors.consistency = 7
    ∧ ((([(⟨"s1", 777601000, 777601000, [], [], ⟨60, 80, 70, 50, 40, 300⟩,
            ⟨0, 0, 0, 0, 0, 0⟩, none⟩ : Session)].filter
              (fun s => 864000000 - 7 * 86400000 ≤ s.startTime)).map
            (fun s => toDay s.startTime)
          ++ ([(⟨none, 777602000, 60, 70, 10, 40, 35, 70⟩ : MorningTestResult)].filter
              (fun t => 864000000 - 7 * 86400000 ≤ t.timestamp)).map
            (fun t => toDay t.timestamp)).dedup.length = 1)
    ∧ min 25 (round (((min (1 : ℤ) 7 : ℤ) : ℚ) / ((min (7 : ℤ) 7 : ℤ) : ℚ) * 25)) = 4
    ∧ (7 : ℤ) ≠ 4 := by
  refine ⟨?_, by decide, ?_, by decide⟩
  · norm_num [calculateRecoveryScore, toDay, List.dedup, round_eq, Int.floor_eq_iff]
  · norm_num [round_eq, Int.floor_eq_iff]

/-- Claim C2, amended: the consistency sub-score counts the distinct
session-days and the distinct test-days separately and adds the two counts
(a calendar day with both a session and a morning test counts twice), caps
the sum at `days`, divides by `min days 7`, scales to 25 and caps at 25. -/
theorem C2_consistency_amended (now days : ℤ) (sessions : List Session)
    (morningTests : List MorningTestResult)
    (h : ¬ ((sessions.filter (fun s => now - days * 86400000 ≤ s.startTime)) = []
         ∧ (morningTests.filter (fun t => now - days * 86400000 ≤ t.timestamp)) = [])) :
    (calculateRecoveryScore now sessions morningTests days).factors.consistency
      = min 25 (round
          (((min ((((sessions.filter (fun s => now - days * 86400000 ≤ s.startTime)).map
                  (fun s => toDay s.startTime)).toFinset.card : ℤ)
                + (((morningTests.filter (fun t => now - days * 86400000 ≤ t.timestamp)).map
                  (fun t => toDay t.timestamp)).toFinset.card : ℤ)) days : ℤ) : ℚ)
            / ((min days 7 : ℤ) : ℚ) * 25)) := by
  simp only [calculateRecoveryScore, if_neg h, List.card_toFinset]

/-- Witness for C2's amended theorem at a concrete input. -/
theorem C2_witness :
    (¬ (([(⟨"s1", 777601000, 777601000, [], [], ⟨60, 80, 70, 50, 40, 300⟩, ⟨0, 0, 0, 0, 0, 0⟩, none⟩ : Session)].filter (fun s => 864000000 - 7 * 86400000 ≤ s.startTime)) = [] ∧ (([] : List MorningTestResult).filter (fun t => 864000000 - 7 * 86400000 ≤ t.timestamp)) = []))
    ∧ ((calculateRecoveryScore 864000000 [(⟨"s1", 777601000, 777601000, [], [], ⟨60, 80, 70, 50, 40, 300⟩, ⟨0, 0, 0, 0, 0, 0⟩, none⟩ : Session)] [] 7).factors.consistency
      = min 25 (round (((min (((([(⟨"s1", 777601000, 777601000, [], [], ⟨60, 80, 70, 50, 40, 300⟩, ⟨0, 0, 0, 0, 0, 0⟩, none⟩ : Session)].filter (fun s => 864000000 - 7 * 86400000 ≤ s.startTime)).map (fun s => toDay s.startTime)).toFinset.card : ℤ) + (((([] : List MorningTestResult).filter (fun t => 864000000 - 7 * 86400000 ≤ t.timestamp)).map (fun t => toDay t.timestamp)).toFinset.card : ℤ)) 7 : ℤ) : ℚ)
          / ((min (7 : ℤ) 7 : ℤ) : ℚ) * 25))) :=
  ⟨by decide, C2_consistency_amended 864000000 7 _ _ (by decide)⟩

/-- Counterexample to Claim C3 as stated: two sessions on different calendar
days (day 35 and day 39, `now` at day 40).  The code gives both trend
points the identical recovery score 95, computed from the call-time-`now`
1-day window; re-invoking the calculator with the 1-day window anchored so
that the older point's day is recent yields 61 ≠ 95, so the older point's
score does not reflect that single day's contribution. -/
theorem C3_counterexample :
    ((buildTrendData 3456000000
        [⟨"a", 3024001000, 3024001000, [], [], ⟨90, 110, 100, 20, 10, 300⟩,
          ⟨0, 400, 0, 0, 0, 0⟩, none⟩,
         ⟨"b", 3455999000, 3455999000, [], [], ⟨50, 60, 50, 60, 60, 300⟩,
          ⟨0, 0, 0, 0, 0, 0⟩, none⟩] [] 30).map (fun p => p.recoveryScore) = [95, 95])
    ∧ (calculateRecoveryScore ((toDay 3024001000 + 1) * 86400000)
        [⟨"a", 3024001000, 3024001000, [], [], ⟨90, 110, 100, 20, 10, 300⟩,
          ⟨0, 400, 0, 0, 0, 0⟩, none⟩,
         ⟨"b", 3455999000, 3455999000, [], [], ⟨50, 60, 50, 60, 60, 300⟩,
          ⟨0, 0, 0, 0, 0, 0⟩, none⟩] [] 1).score = 61
    ∧ (95 : ℤ) ≠ 61 := by
  have h1 : Int.fdiv 3024001000 86400000 = 35 := by decide
  have h2 : Int.fdiv 3455999000 86400000 = 39 := by decide
  have h3 : List.dedup ([39] : List ℤ) = [39] := by decide
  have h4 : List.dedup ([35, 39] : List ℤ) = [35, 39] := by decide
  have hanchor : ((toDay 3024001000 + 1) * 86400000 : ℤ) = 3110400000 := by decide
  refine ⟨?_, ?_, by decide⟩
  · norm_num [buildTrendData, calculateRecoveryScore, toDay, insertKey,
      sortByTime, insertByTime, h1, h2, h3, h4, round_eq, Int.floor_eq_iff]
  · rw [hanchor]
    norm_num [calculateRecoveryScore, toDay, h1, h2, h4, round_eq, Int.floor_eq_iff]
    simp

/-- Claim C3, amended: every trend point's `recoveryScore` is the score of
`calculateRecoveryScore` re-invoked over the full histories with a 1-day
window anchored at call-time `now` — the same value for every point of the
chart, reflecting the final day relative to `now`, not the point's day. -/
theorem C3_recovery_per_point (now days : ℤ) (sessions : List Session)
    (morningTests : List MorningTestResult) (p : TrendPoint)
    (hp : p ∈ buildTrendData now sessions morningTests days) :
    p.recoveryScore = (calculateRecoveryScore now sessions morningTests 1).score := by
  simp only [buildTrendData, List.mem_map] at hp
  obtain ⟨k, hk, rfl⟩ := hp
  rfl

/-- Witness for C3's amended theorem at a concrete input. -/
theorem C3_witness :
    ((⟨35, 3024000000, 10, 20, 400, 0, 100⟩ : TrendPoint)
        ∈ buildTrendData 3456000000
          [⟨"a", 3024000000, 3024000000, [], [], ⟨90, 110, 100, 20, 10, 300⟩,
            ⟨0, 400, 0, 0, 0, 0⟩, none⟩] [] 30)
    ∧ (⟨35, 3024000000, 10, 20, 400, 0, 100⟩ : TrendPoint).recoveryScore
      = (calculateRecoveryScore 3456000000
          [⟨"a", 3024000000, 3024000000, [], [], ⟨90, 110, 100, 20, 10, 300⟩,
            ⟨0, 400, 0, 0, 0, 0⟩, none⟩] [] 1).score := by
  have hmem : (⟨35, 3024000000, 10, 20, 400, 0, 100⟩ : TrendPoint)
      ∈ buildTrendData 3456000000
        [⟨"a", 3024000000, 3024000000, [], [], ⟨90, 110, 100, 20, 10, 300⟩,
          ⟨0, 400, 0, 0, 0, 0⟩, none⟩] [] 30 := by
    have h1 : Int.fdiv 3024000000 86400000 = 35 := by decide
    norm_num [buildTrendData, calculateRecoveryScore, toDay, insertKey,
      sortByTime, insertByTime, h1, round_eq, Int.floor_eq_iff]
  exact ⟨hmem, C3_recovery_per_point 3456000000 30 _ _ _ hmem⟩

/-- Claim C10: `getTrendDirection` is total: every series yields one of the
three directions, every series with fewer than 2 values yields `stable`,
and the relative-change denominator — `1` when the first-half mean is `0`,
the mean itself otherwise — is never zero, so no division by zero (and in
JS terms no `NaN`/`Infinity`) is ever produced. -/
theorem C10_trend_direction_total (values : List ℚ) :
    (values.length < 2 → getTrendDirection values = TrendDirection.stable)
    ∧ (getTrendDirection values = TrendDirection.improving
        ∨ getTrendDirection values = TrendDirection.declining
        ∨ getTrendDirection values = TrendDirection.stable)
    ∧ ((if (values.take (values.length / 2)).sum
            / ((values.take (values.length / 2)).length : ℚ) = 0
        then (1 : ℚ)
        else (values.take (values.length / 2)).sum
            / ((values.take (values.length / 2)).length : ℚ)) ≠ 0) := by
  refine ⟨?_, ?_, ?_⟩
  · intro h
    simp [getTrendDirection, h]
  · rcases h : getTrendDirection values with _ | _ | _ <;> simp
  · split
    · norm_num
    · assumption

/-- Witness for C10 at a concrete input. -/
theorem C10_witness :
    (([5] : List ℚ)).length < 2 ∧ getTrendDirection [5] = TrendDirection.stable :=
  ⟨by decide, (C10_trend_direction_total [5]).1 (by decide)⟩

open AdvancedStatsCalculator in
theorem applyOp_preserves (st : AdvancedState) (op : AdvancedOp)
    (h : opWithin (st.lastFrequencyCalculation + 5000) op = true) :
    (applyOp st op).cachedFrequencyDomain = st.cachedFrequencyDomain
    ∧ (applyOp st op).lastFrequencyCalculation = st.lastFrequencyCalculation
    ∧ st.rrIntervals.length ≤ (applyOp st op).rrIntervals.length := by
  cases op with
  | addRR xs => simp [applyOp, addRRIntervals]
  | calcAt t =>
    simp only [opWithin, decide_eq_true_eq] at h
    simp only [applyOp, calculate]
    split
    · simp
    · have hthr : ¬ 5000 < t - st.lastFrequencyCalculation := by omega
      simp [hthr]

theorem runOps_preserves (ops : List AdvancedOp) (st : AdvancedState)
    (h : ops.all (opWithin (st.lastFrequencyCalculation + 5000)) = true) :
    (runOps st ops).cachedFrequencyDomain = st.cachedFrequencyDomain
    ∧ (runOps st ops).lastFrequencyCalculation = st.lastFrequencyCalculation
    ∧ st.rrIntervals.length ≤ (runOps st ops).rrIntervals.length := by
  induction ops generalizing st with
  | nil => simp [runOps]
  | cons op ops ih =>
    simp only [List.all_cons, Bool.and_eq_true] at h
    have hstep := applyOp_preserves st op h.1
    have hrec := ih (applyOp st op) (by rw [hstep.2.1]; exact h.2)
    simp only [runOps, List.foldl_cons] at *
    exact ⟨hrec.1.trans hstep.1, hrec.2.1.trans hstep.2.1,
      le_trans hstep.2.2 hrec.2.2⟩

open AdvancedStatsCalculator in
/-- Claim C4: once `calculate()` refreshes the spectral cache at time `t`
(buffer of at least 2 intervals, throttle expired), any later `calculate()`
call within 5 seconds of `t` returns exactly the cached `lf`, `hf`,
`lfHfRatio` and `respirationRate`, even across intervening
`addRRIntervals`/`calculate` operations, while `pnn50` and `stressIndex`
are recomputed fresh from the buffer as it stands at that call. -/
theorem C4_throttled_cache (st : AdvancedState) (t t2 : ℤ) (ops : List AdvancedOp)
    (hlen : 2 ≤ st.rrIntervals.length)
    (hfresh : 5000 < t - st.lastFrequencyCalculation)
    (hops : ops.all (opWithin (t + 5000)) = true)
    (ht2 : t2 ≤ t + 5000) :
    ((calculate t2 (runOps (calculate t st).2 ops)).1.lf = (calculate t st).1.lf
      ∧ (calculate t2 (runOps (calculate t st).2 ops)).1.hf = (calculate t st).1.hf
      ∧ (calculate t2 (runOps (calculate t st).2 ops)).1.lfHfRatio
          = (calculate t st).1.lfHfRatio
      ∧ (calculate t2 (runOps (calculate t st).2 ops)).1.respirationRate
          = (calculate t st).1.respirationRate)
    ∧ (calculate t2 (runOps (calculate t st).2 ops)).1.pnn50
        = calculatePNN50 (runOps (calculate t st).2 ops).rrIntervals
    ∧ (calculate t2 (runOps (calculate t st).2 ops)).1.stressIndex
        = calculateStressIndex (runOps (calculate t st).2 ops).rrIntervals := by
  have h2 : ¬ st.rrIntervals.length < 2 := by omega
  have hst1 : (calculate t st).2
      = { st with
          cachedFrequencyDomain := calculateFrequencyDomain st.rrIntervals
          lastFrequencyCalculation := t } := by
    simp [calculate, h2, hfresh]
  have hr1 : (calculate t st).1
      = ⟨calculatePNN50 st.rrIntervals, calculateStressIndex st.rrIntervals,
          (calculateFrequencyDomain st.rrIntervals).lf,
          (calculateFrequencyDomain st.rrIntervals).hf,
          (calculateFrequencyDomain st.rrIntervals).lfHfRatio,
          (calculateFrequencyDomain st.rrIntervals).respirationRate⟩ := by
    simp [calculate, h2, hfresh]
  have hpres := runOps_preserves ops (calculate t st).2 (by rw [hst1]; exact hops)
  set st2 := runOps (calculate t st).2 ops with hst2
  have hcache : st2.cachedFrequencyDomain = calculateFrequencyDomain st.rrIntervals := by
    rw [hpres.1, hst1]
  have hlast : st2.lastFrequencyCalculation = t := by
    rw [hpres.2.1, hst1]
  have hlen2 : ¬ st2.rrIntervals.length < 2 := by
    have := hpres.2.2
    rw [hst1] at this
    simp only at this
    omega
  have hthr : ¬ 5000 < t2 - st2.lastFrequencyCalculation := by
    rw [hlast]
    omega
  have hr2 : (calculate t2 st2).1
      = ⟨calculatePNN50 st2.rrIntervals, calculateStressIndex st2.rrIntervals,
          st2.cachedFrequencyDomain.lf, st2.cachedFrequencyDomain.hf,
          st2.cachedFrequencyDomain.lfHfRatio,
          st2.cachedFrequencyDomain.respirationRate⟩ := by
    simp [calculate, hlen2, hthr]
  rw [hr2, hr1, hcache]
  simp

open AdvancedStatsCalculator in
theorem calculate_snd_rr (t : ℤ) (st : AdvancedState) :
    ((calculate t st).2).rrIntervals = st.rrIntervals := by
  simp only [calculate]
  split
  · rfl
  · split <;> rfl

open AdvancedStatsCalculator in
theorem freqDomain_zero_of_lt60 {rr : List ℚ} (h : rr.length < 60) :
    calculateFrequencyDomain rr = ⟨0, 0, 0, 0⟩ := by
  rw [calculateFrequencyDomain, if_pos h]

open AdvancedStatsCalculator in
theorem reachable_cached_zero {st : AdvancedState} (hR : Reachable st) :
    st.rrIntervals.length < 60 → st.cachedFrequencyDomain = ⟨0, 0, 0, 0⟩ := by
  induction hR with
  | init => intro _; rfl
  | add xs hR ih =>
    intro hlen
    simp only [addRRIntervals, List.length_append] at hlen ⊢
    exact ih (by omega)
  | calcStep t hR ih =>
    intro hlen
    rename_i st0
    rw [calculate_snd_rr] at hlen
    have hc0 := ih hlen
    simp only [calculate]
    split
    · exact hc0
    · split
      · simp [freqDomain_zero_of_lt60 hlen]
      · exact hc0
  | resetStep hR ih =>
    intro _
    rfl

open AdvancedStatsCalculator in
/-- Claim C5: in every reachable state of the Spectral Analysis Engine whose
RR buffer holds fewer than 60 intervals, `calculate()` returns
`lf = hf = lfHfRatio = respirationRate = 0`. -/
theorem C5_spectral_zero_small_buffer (st : AdvancedState) (hR : Reachable st)
    (hlen : st.rrIntervals.length < 60) (t : ℤ) :
    (calculate t st).1.lf = 0 ∧ (calculate t st).1.hf = 0
    ∧ (calculate t st).1.lfHfRatio = 0 ∧ (calculate t st).1.respirationRate = 0 := by
  have hc := reachable_cached_zero hR hlen
  by_cases h2 : st.rrIntervals.length < 2
  · simp [calculate, h2]
  · simp only [calculate, if_neg h2]
    split
    · simp [freqDomain_zero_of_lt60 hlen]
    · simp [hc]

open AdvancedStatsCalculator in
/-- Witness for C5 at a concrete input. -/
theorem C5_witness :
    Reachable (addRRIntervals initial [800, 900, 1000])
    ∧ (addRRIntervals initial [800, 900, 1000]).rrIntervals.length < 60
    ∧ (calculate 123456 (addRRIntervals initial [800, 900, 1000])).1.lf = 0 :=
  ⟨Reachable.add _ Reachable.init, by decide,
    (C5_spectral_zero_small_buffer _ (Reachable.add _ Reachable.init) (by decide) 123456).1⟩

open AdvancedStatsCalculator in
theorem foldl_addRR_join (batches : List (List ℚ)) (st : AdvancedState) :
    batches.foldl addRRIntervals st = addRRIntervals st batches.join := by
  induction batches generalizing st with
  | nil => simp [addRRIntervals]
  | cons l ls ih =>
    simp only [List.foldl_cons, List.join_cons, ih, addRRIntervals, List.append_assoc]

open AdvancedStatsCalculator in
/-- Claim C9: `addRRIntervals(a)` followed by `addRRIntervals(b)` leaves the
same state as the single call `addRRIntervals(a ++ b)`; in general any
batching of additions leaves the state of the concatenation, so every
`calculate()` output depends only on the concatenated sequence of intervals
added since the last reset. -/
theorem C9_add_batching (st : AdvancedState) (a b : List ℚ)
    (batches : List (List ℚ)) (t : ℤ) :
    addRRIntervals (addRRIntervals st a) b = addRRIntervals st (a ++ b)
    ∧ batches.foldl addRRIntervals st = addRRIntervals st batches.join
    ∧ calculate t (batches.foldl addRRIntervals st)
        = calculate t (addRRIntervals st batches.join) := by
  refine ⟨?_, foldl_addRR_join batches st, ?_⟩
  · simp [addRRIntervals, List.append_assoc]
  · rw [foldl_addRR_join batches st]

theorem foldl_mode_fst_le (count : ℤ → ℤ) (l : List ℤ) (p : ℤ × ℤ) :
    p.1 ≤ (l.foldl (fun q b => if q.1 < count b then (count b, b) else q) p).1 := by
  induction l generalizing p with
  | nil => simp
  | cons x xs ih =>
    simp only [List.foldl_cons]
    refine le_trans ?_ (ih _)
    split
    · next h => exact le_of_lt h
    · exact le_refl _

theorem foldl_mode_le (count : ℤ → ℤ) (l : List ℤ) (p : ℤ × ℤ) :
    ∀ b ∈ l, count b ≤ (l.foldl (fun q b => if q.1 < count b then (count b, b) else q) p).1 := by
  induction l generalizing p with
  | nil => simp
  | cons x xs ih =>
    intro b hb
    rcases List.mem_cons.1 hb with rfl | hb
    · simp only [List.foldl_cons]
      refine le_trans ?_ (foldl_mode_fst_le count xs _)
      split
      · exact le_refl _
      · next h => omega
    · exact ih _ b hb

theorem foldl_mode_attain (count : ℤ → ℤ) (l : List ℤ) (p : ℤ × ℤ) :
    (l.foldl (fun q b => if q.1 < count b then (count b, b) else q) p) = p
    ∨ ((l.foldl (fun q b => if q.1 < count b then (count b, b) else q) p).2 ∈ l
        ∧ count (l.foldl (fun q b => if q.1 < count b then (count b, b) else q) p).2
          = (l.foldl (fun q b => if q.1 < count b then (count b, b) else q) p).1) := by
  induction l generalizing p with
  | nil => left; rfl
  | cons x xs ih =>
    simp only [List.foldl_cons]
    by_cases hx : p.1 < count x
    · rcases ih ((count x, x)) with h | h
      · right
        rw [if_pos hx, h]
        exact ⟨List.mem_cons_self x xs, rfl⟩
      · right
        rw [if_pos hx]
        exact ⟨List.mem_cons_of_mem x h.1, h.2⟩
    · rcases ih p with h | h
      · left
        rw [if_neg hx, h]
      · right
        rw [if_neg hx]
        exact ⟨List.mem_cons_of_mem x h.1, h.2⟩

theorem mem_insertByTime (time : ℤ → ℤ) (x a : ℤ) (l : List ℤ) :
    a ∈ insertByTime time x l ↔ a = x ∨ a ∈ l := by
  induction l with
  | nil => simp [insertByTime]
  | cons y ys ih =>
    simp only [insertByTime]
    split
    · simp only [List.mem_cons, ih]
      tauto
    · simp only [List.mem_cons]

theorem mem_foldl_insertByTime (time : ℤ → ℤ) (l acc : List ℤ) (a : ℤ) :
    a ∈ l.foldl (fun acc x => insertByTime time x acc) acc ↔ a ∈ acc ∨ a ∈ l := by
  induction l generalizing acc with
  | nil => simp
  | cons x xs ih =>
    simp only [List.foldl_cons, ih, mem_insertByTime, List.mem_cons]
    tauto

theorem mem_sortByTime (time : ℤ → ℤ) (l : List ℤ) (a : ℤ) :
    a ∈ sortByTime time l ↔ a ∈ l := by
  simp [sortByTime, mem_foldl_insertByTime]

theorem mem_sortAsc (l : List ℤ) (a : ℤ) : a ∈ sortAsc l ↔ a ∈ l :=
  mem_sortByTime _ l a

theorem listMin_replicate (n : ℕ) (c : ℚ) (h : 1 ≤ n) :
    listMin (List.replicate n c) = c := by
  obtain ⟨k, rfl⟩ : ∃ k, n = k + 1 := ⟨n - 1, by omega⟩
  have haux : ∀ m : ℕ, (List.replicate m c).foldl min c = c := by
    intro m
    induction m with
    | zero => rfl
    | succ m ihm => simpa [List.replicate_succ, min_self] using ihm
  simp [listMin, List.replicate_succ, haux k]

theorem listMax_replicate (n : ℕ) (c : ℚ) (h : 1 ≤ n) :
    listMax (List.replicate n c) = c := by
  obtain ⟨k, rfl⟩ : ∃ k, n = k + 1 := ⟨n - 1, by omega⟩
  have haux : ∀ m : ℕ, (List.replicate m c).foldl max c = c := by
    intro m
    induction m with
    | zero => rfl
    | succ m ihm => simpa [List.replicate_succ, max_self] using ihm
  simp [listMax, List.replicate_succ, haux k]

open AdvancedStatsCalculator in
theorem modePair_le (rr : List ℚ) :
    ∀ b2 ∈ rr.map binOf, (binCount rr b2 : ℤ) ≤ (modePair rr).1 := by
  intro b2 hb2
  have hb2' : b2 ∈ sortAsc ((rr.map binOf).dedup) := by
    rw [mem_sortAsc, List.mem_dedup]
    exact hb2
  exact foldl_mode_le (fun b => (binCount rr b : ℤ))
    (sortAsc ((rr.map binOf).dedup)) (0, 0) b2 hb2'

open AdvancedStatsCalculator in
theorem modePair_attain (rr : List ℚ) (hne : rr ≠ []) :
    (modePair rr).2 ∈ rr.map binOf
    ∧ (binCount rr (modePair rr).2 : ℤ) = (modePair rr).1 := by
  rcases foldl_mode_attain (fun b => (binCount rr b : ℤ))
      (sortAsc ((rr.map binOf).dedup)) (0, 0) with hfold | ⟨hmem, hcnt⟩
  · exfalso
    obtain ⟨x0, hx0⟩ := List.exists_mem_of_ne_nil rr hne
    have hb0 : binOf x0 ∈ sortAsc ((rr.map binOf).dedup) := by
      rw [mem_sortAsc, List.mem_dedup]
      exact List.mem_map_of_mem _ hx0
    have hle : (binCount rr (binOf x0) : ℤ) ≤ (modePair rr).1 :=
      foldl_mode_le (fun b => (binCount rr b : ℤ))
        (sortAsc ((rr.map binOf).dedup)) (0, 0) (binOf x0) hb0
    have h0 : modePair rr = (0, 0) := hfold
    rw [h0] at hle
    have hpos : 0 < binCount rr (binOf x0) := by
      apply List.length_pos.2
      exact List.ne_nil_of_mem (List.mem_filter.2 ⟨hx0, by simp⟩)
    simp only at hle
    omega
  · have hmem' : (modePair rr).2 ∈ sortAsc ((rr.map binOf).dedup) := hmem
    have hcnt' : (binCount rr (modePair rr).2 : ℤ) = (modePair rr).1 := hcnt
    rw [mem_sortAsc, List.mem_dedup] at hmem'
    exact ⟨hmem', hcnt'⟩

open AdvancedStatsCalculator in
/-- Claim C6: `calculate` returns `stressIndex = 0` for buffers shorter than
30, `0` for any constant series of 30 or more identical intervals, and in
general either `0` (whenever the modal bin center `Mo` or the variational
range `MxDMn` vanishes) or `round (AMo / (2·Mo·MxDMn))` for the modal
50 ms bin `b` — the division is never taken with a zero denominator, so the
result is never `NaN` or `Infinity`. -/
theorem C6_stress_index_guard (rr : List ℚ) :
    (rr.length < 30 → calculateStressIndex rr = 0)
    ∧ (∀ (n : ℕ) (c : ℚ), 30 ≤ n → calculateStressIndex (List.replicate n c) = 0)
    ∧ (calculateStressIndex rr = 0
        ∨ ∃ b : ℤ,
            b ∈ rr.map binOf
            ∧ (∀ b2 ∈ rr.map binOf, binCount rr b2 ≤ binCount rr b)
            ∧ ((b : ℚ) / 1000) ≠ 0
            ∧ ((listMax rr - listMin rr) / 1000) ≠ 0
            ∧ calculateStressIndex rr
              = ((round ((((binCount rr b : ℚ) / (rr.length : ℚ)) * 100)
                  / (2 * ((b : ℚ) / 1000)
                      * ((listMax rr - listMin rr) / 1000))) : ℤ) : ℚ)) := by
  refine ⟨fun h => by simp [calculateStressIndex, h], ?_, ?_⟩
  · intro n c hn
    have hlen : ¬ (List.replicate n c).length < 30 := by
      simp only [List.length_replicate]
      omega
    have hmin : listMin (List.replicate n c) = c := listMin_replicate n c (by omega)
    have hmax : listMax (List.replicate n c) = c := listMax_replicate n c (by omega)
    simp [calculateStressIndex, hlen, hmin, hmax]
  · by_cases h30 : rr.length < 30
    · left
      simp [calculateStressIndex, h30]
    · by_cases hg : ((listMax rr - listMin rr) / 1000 : ℚ) = 0
          ∨ (((modePair rr).2 : ℚ) / 1000) = 0
      · left
        simp only [calculateStressIndex, if_neg h30]
        rw [if_pos hg]
      · right
        push_neg at hg
        have hne : rr ≠ [] := by
          intro h
          rw [h] at h30
          simp at h30
        obtain ⟨hmem, hcnt⟩ := modePair_attain rr hne
        refine ⟨(modePair rr).2, hmem, ?_, hg.2, hg.1, ?_⟩
        · intro b2 hb2
          have := modePair_le rr b2 hb2
          rw [← hcnt] at this
          exact_mod_cast this
        · simp only [calculateStressIndex, if_neg h30]
          rw [if_neg (by push_neg; exact hg)]
          have hq : ((modePair rr).1 : ℚ) = (binCount rr (modePair rr).2 : ℚ) := by
            exact_mod_cast hcnt.symm
          rw [hq]

open AdvancedStatsCalculator in
/-- Witness for C6 at a concrete input. -/
theorem C6_witness :
    ([(800 : ℚ)].length < 30) ∧ calculateStressIndex [800] = 0 :=
  ⟨by decide, (C6_stress_index_guard [800]).1 (by decide)⟩

open AdvancedStatsCalculator in
/-- Witness for C4 at a concrete input. -/
theorem C4_witness :
    (2 ≤ (⟨[800, 900], ⟨0, 0, 0, 0⟩, 0⟩ : AdvancedState).rrIntervals.length)
    ∧ (5000 < (6000 : ℤ)
        - (⟨[800, 900], ⟨0, 0, 0, 0⟩, 0⟩ : AdvancedState).lastFrequencyCalculation)
    ∧ ([AdvancedOp.addRR [1000], AdvancedOp.calcAt 7000].all
        (opWithin ((6000 : ℤ) + 5000)) = true)
    ∧ ((9000 : ℤ) ≤ 6000 + 5000)
    ∧ ((calculate 9000
          (runOps (calculate 6000 (⟨[800, 900], ⟨0, 0, 0, 0⟩, 0⟩ : AdvancedState)).2
            [AdvancedOp.addRR [1000], AdvancedOp.calcAt 7000])).1.lf
        = (calculate 6000 (⟨[800, 900], ⟨0, 0, 0, 0⟩, 0⟩ : AdvancedState)).1.lf) :=
  ⟨by decide, by decide, by decide, by decide,
    (C4_throttled_cache ⟨[800, 900], ⟨0, 0, 0, 0⟩, 0⟩ 6000 9000
      [AdvancedOp.addRR [1000], AdvancedOp.calcAt 7000]
      (by decide) (by decide) (by decide) (by decide)).1.1⟩

theorem round_le_round_rat {a b : ℚ} (h : a ≤ b) : round a ≤ round b := by
  rw [round_eq, round_eq]
  exact Int.floor_le_floor (by linarith)

/-- Claim C7: holding `avgHr`, `sdnn`, `pnn50` and the (positive) baseline
fixed, `calculateReadiness` is monotonically non-decreasing in
`stats.rmssd`; and whenever `pnn50 ≤ 0` the RMSSD sub-score is gated to 0
regardless of the rmssd value. -/
theorem C7_readiness_monotone (mn mx hr sd du r1 r2 p si lf hf ratio resp : ℚ)
    (B : PersonalBaseline) (hB : 0 < B.avgRmssd) (h12 : r1 ≤ r2) :
    (calculateReadiness ⟨mn, mx, hr, sd, r1, du⟩ ⟨p, si, lf, hf, ratio, resp⟩ B).score
      ≤ (calculateReadiness ⟨mn, mx, hr, sd, r2, du⟩ ⟨p, si, lf, hf, ratio, resp⟩ B).score
    ∧ (p ≤ 0 → ∀ r : ℚ,
        (calculateReadiness ⟨mn, mx, hr, sd, r, du⟩
          ⟨p, si, lf, hf, ratio, resp⟩ B).factors.rmssd.contribution = 0) := by
  constructor
  · simp only [calculateReadiness]
    apply round_le_round_rat
    have key : min 100 (max 0 ((if 0 < p then r1 / B.avgRmssd else 0) * 100)) * 0.40
        ≤ min 100 (max 0 ((if 0 < p then r2 / B.avgRmssd else 0) * 100)) * 0.40 := by
      by_cases hp : 0 < p
      · simp only [if_pos hp]
        have hdiv : r1 / B.avgRmssd ≤ r2 / B.avgRmssd := by gcongr
        gcongr
      · simp [if_neg hp]
    linarith [key]
  · intro hp r
    have hnp : ¬ 0 < p := not_lt.2 hp
    simp [calculateReadiness, hnp]

/-- Witness for C7 at a concrete input. -/
theorem C7_witness :
    (0 < DEFAULT_BASELINE.avgRmssd) ∧ ((30 : ℚ) ≤ 50)
    ∧ (calculateReadiness ⟨55, 80, 60, 45, 30, 300⟩ ⟨12, 100, 0, 0, 0, 0⟩
        DEFAULT_BASELINE).score
      ≤ (calculateReadiness ⟨55, 80, 60, 45, 50, 300⟩ ⟨12, 100, 0, 0, 0, 0⟩
        DEFAULT_BASELINE).score :=
  ⟨by norm_num [DEFAULT_BASELINE], by norm_num,
    (C7_readiness_monotone 55 80 60 45 300 30 50 12 100 0 0 0 0 DEFAULT_BASELINE
      (by norm_num [DEFAULT_BASELINE]) (by norm_num)).1⟩

